import Mathlib

/-!
Verification development for the PulseAudio backend driver of
libcanberra-vizaudio (src/pulse.c).

The definitions below are a shallow embedding of src/pulse.c.  Pure C
functions become Lean functions; the mutable driver state (the `struct
private` context) is passed and returned explicitly; the behaviour of the
external PulseAudio server and of the sound-file collaborators is supplied
through explicit environment records; the observable actions of a call
(server requests, registry unlink, callback invocation, frees) are recorded
in an event trace in the exact order the C code performs them.

C `int` return codes are modelled as `Int`.  Reads of uninitialized C
variables (`ret` in `subscribe`, `ret2` in `driver_cancel`) are modelled by
an explicit `garbage` environment value standing for the indeterminate
stack contents.
-/

namespace Canberra

/-- Error taxonomy of the driver.  Modelled from the spec (section 7) and the
repository's public header `canberra.h`, which is not under `src/`: success
is 0 and errors are distinct negative codes (the code tests errors with
`< 0`). -/
def CA_SUCCESS : Int := 0

/-- See `CA_SUCCESS`. -/
def CA_ERROR_NOTSUPPORTED : Int := -1

/-- See `CA_SUCCESS`. -/
def CA_ERROR_INVALID : Int := -2

/-- See `CA_SUCCESS`. -/
def CA_ERROR_STATE : Int := -3

/-- See `CA_SUCCESS`. -/
def CA_ERROR_OOM : Int := -4

/-- See `CA_SUCCESS`. -/
def CA_ERROR_NODRIVER : Int := -5

/-- See `CA_SUCCESS`. -/
def CA_ERROR_TOOBIG : Int := -8

/-- See `CA_SUCCESS`. -/
def CA_ERROR_NOTFOUND : Int := -9

/-- See `CA_SUCCESS`. -/
def CA_ERROR_DESTROYED : Int := -10

/-- See `CA_SUCCESS`. -/
def CA_ERROR_CANCELED : Int := -11

/-- See `CA_SUCCESS`. -/
def CA_ERROR_NOTAVAILABLE : Int := -12

/-- See `CA_SUCCESS`. -/
def CA_ERROR_ACCESS : Int := -13

/-- See `CA_SUCCESS`. -/
def CA_ERROR_IO : Int := -14

/-- PulseAudio error codes (external collaborator, `pulse/def.h` of the era
of this source): a contiguous enum `PA_OK = 0 .. PA_ERR_TOOLARGE = 18`,
with `PA_ERR_MAX = 19`. -/
def PA_OK : Nat := 0

/-- See `PA_OK`. -/
def PA_ERR_ACCESS : Nat := 1

/-- See `PA_OK`. -/
def PA_ERR_COMMAND : Nat := 2

/-- See `PA_OK`. -/
def PA_ERR_INVALID : Nat := 3

/-- See `PA_OK`. -/
def PA_ERR_EXIST : Nat := 4

/-- See `PA_OK`. -/
def PA_ERR_NOENTITY : Nat := 5

/-- See `PA_OK`. -/
def PA_ERR_CONNECTIONREFUSED : Nat := 6

/-- See `PA_OK`. -/
def PA_ERR_PROTOCOL : Nat := 7

/-- See `PA_OK`. -/
def PA_ERR_TIMEOUT : Nat := 8

/-- See `PA_OK`. -/
def PA_ERR_AUTHKEY : Nat := 9

/-- See `PA_OK`. -/
def PA_ERR_INTERNAL : Nat := 10

/-- See `PA_OK`. -/
def PA_ERR_CONNECTIONTERMINATED : Nat := 11

/-- See `PA_OK`. -/
def PA_ERR_KILLED : Nat := 12

/-- See `PA_OK`. -/
def PA_ERR_INVALIDSERVER : Nat := 13

/-- See `PA_OK`. -/
def PA_ERR_MODINITFAILED : Nat := 14

/-- See `PA_OK`. -/
def PA_ERR_BADSTATE : Nat := 15

/-- See `PA_OK`. -/
def PA_ERR_NODATA : Nat := 16

/-- See `PA_OK`. -/
def PA_ERR_VERSION : Nat := 17

/-- See `PA_OK`. -/
def PA_ERR_TOOLARGE : Nat := 18

/-- See `PA_OK`. -/
def PA_ERR_MAX : Nat := 19

/-- `PA_INVALID_INDEX` is `(uint32_t) -1`. -/
def PA_INVALID_INDEX : Nat := 4294967295

/-- The `static const int table[PA_ERR_MAX]` of `translate_error`
(pulse.c lines 134-154), written with designated initializers; array
entries without an explicit initializer are zero-initialized by C, which is
the `| _ => 0` arm. -/
def translate_error_table (e : Nat) : Int :=
  match e with
  | 0 => CA_SUCCESS
  | 1 => CA_ERROR_ACCESS
  | 2 => CA_ERROR_IO
  | 3 => CA_ERROR_INVALID
  | 4 => CA_ERROR_IO
  | 5 => CA_ERROR_NOTFOUND
  | 6 => CA_ERROR_NOTAVAILABLE
  | 7 => CA_ERROR_IO
  | 8 => CA_ERROR_IO
  | 9 => CA_ERROR_ACCESS
  | 10 => CA_ERROR_IO
  | 11 => CA_ERROR_IO
  | 12 => CA_ERROR_DESTROYED
  | 13 => CA_ERROR_INVALID
  | 14 => CA_ERROR_NODRIVER
  | 15 => CA_ERROR_STATE
  | 16 => CA_ERROR_IO
  | 17 => CA_ERROR_NOTSUPPORTED
  | 18 => CA_ERROR_TOOBIG
  | _ => 0

/-- The indices of `translate_error`'s table that carry an explicit
designated initializer in the source (every member of the server's error
enum, `PA_OK` through `PA_ERR_TOOLARGE`). -/
def explicitly_mapped (e : Nat) : Bool :=
  [PA_OK, PA_ERR_ACCESS, PA_ERR_COMMAND, PA_ERR_INVALID, PA_ERR_EXIST,
   PA_ERR_NOENTITY, PA_ERR_CONNECTIONREFUSED, PA_ERR_PROTOCOL,
   PA_ERR_TIMEOUT, PA_ERR_AUTHKEY, PA_ERR_INTERNAL,
   PA_ERR_CONNECTIONTERMINATED, PA_ERR_KILLED, PA_ERR_INVALIDSERVER,
   PA_ERR_MODINITFAILED, PA_ERR_BADSTATE, PA_ERR_NODATA, PA_ERR_VERSION,
   PA_ERR_TOOLARGE].contains e

/-- `translate_error` (pulse.c lines 133-162).  The argument is `Nat`
because the function asserts `error >= 0`. -/
def translate_error (error : Nat) : Int :=
  if PA_ERR_MAX ≤ error then CA_ERROR_IO
  else translate_error_table error

/-- A `pa_proplist` and a `ca_proplist` are both modelled as an ordered list
of key/value string pairs.  `convert_proplist` (lines 95-119) copies every
pair of the `ca_proplist` into a fresh `pa_proplist` (its OOM and
set-failure paths are not modelled), so the conversion is the identity on
this representation. -/
abbrev PaProplist := List (String × String)

/-- `pa_proplist_gets`: first value stored under the key, if any. -/
def pa_proplist_gets (l : PaProplist) (key : String) : Option String :=
  (l.find? (fun kv => kv.fst == key)).map (fun kv => kv.snd)

/-- C `strncmp(s, t, n) == 0` for strings without embedded NUL bytes:
the comparison stops at the first difference, at a terminating NUL, or
after `n` characters, so it succeeds exactly when the first `n` characters
(padding with end-of-string) agree. -/
def strncmp_is_zero (s t : String) (n : Nat) : Bool :=
  s.data.take n == t.data.take n

/-- `strip_canberra_data` (pulse.c lines 121-131): iterates over the keys
of the outgoing `pa_proplist` and unsets every key `k` with
`strncmp(k, "canberra.", 12) == 0`.  Note the literal `12` from the source:
the namespace string `"canberra."` has only 9 characters. -/
def strip_canberra_data (l : PaProplist) : PaProplist :=
  l.filter (fun kv => !(strncmp_is_zero kv.fst "canberra." 12))

example : strip_canberra_data [("canberra.volume", "1.0")] = [("canberra.volume", "1.0")] := by
  decide

example : strip_canberra_data [("canberra.", "x")] = [] := by decide

example : translate_error 5 = CA_ERROR_NOTFOUND := by decide

example : translate_error 25 = CA_ERROR_IO := by decide

/-- Property-name constants used by `driver_play` and `driver_cache`.
Modelled from the spec and the repository's public header `canberra.h`
(not under `src/`): the event-name property and the two reserved
`canberra.`-namespace properties read by this driver. -/
def CA_PROP_EVENT_ID : String := "event.id"

/-- See `CA_PROP_EVENT_ID`. -/
def CA_PROP_CANBERRA_VOLUME : String := "canberra.volume"

/-- See `CA_PROP_EVENT_ID`. -/
def CA_PROP_CANBERRA_CACHE_CONTROL : String := "canberra.cache-control"

/-- `ca_cache_control_t`, from the repository's internal header (not under
`src/`): a plain C enum whose first constant `CA_CACHE_CONTROL_NEVER` has
value 0. -/
inductive ca_cache_control where
  | CA_CACHE_CONTROL_NEVER
  | CA_CACHE_CONTROL_PERMANENT
  | CA_CACHE_CONTROL_VOLATILE
  deriving BEq, DecidableEq

/-- Modelled from the spec: `ca_parse_cache_control` (in the repository but
not under `src/`) parses the strictly-syntaxed cache-control string
`never|permanent|volatile`; any other value is an Invalid error (here
`none`). -/
def ca_parse_cache_control (s : String) : Option ca_cache_control :=
  if s == "never" then some ca_cache_control.CA_CACHE_CONTROL_NEVER
  else if s == "permanent" then some ca_cache_control.CA_CACHE_CONTROL_PERMANENT
  else if s == "volatile" then some ca_cache_control.CA_CACHE_CONTROL_VOLATILE
  else none

/-- `enum outstanding_type` (pulse.c lines 49-53). -/
inductive outstanding_type where
  | OUTSTANDING_SAMPLE
  | OUTSTANDING_STREAM
  | OUTSTANDING_UPLOAD
  deriving BEq, DecidableEq

/-- `struct outstanding` (pulse.c lines 55-67).  `tag` models the heap
address of the node: `CA_LLIST_REMOVE` unlinks by node identity, and the
event trace refers to requests through it.  `stream` and `file` record
whether the corresponding handle is held. -/
structure Outstanding where
  tag : Nat
  type : outstanding_type
  id : Nat
  sink_input : Nat
  stream : Bool
  callback : Bool
  userdata : Bool
  file : Bool
  error : Int
  clean_up : Bool
  deriving BEq, DecidableEq

/-- `struct private` (pulse.c lines 69-77): the per-context driver state.
`mainloop` and `context` record whether those handles are non-NULL;
`outstanding` is the registry list (head first, as the intrusive list). -/
structure Private where
  mainloop : Bool
  context : Bool
  theme : Bool
  subscribed : Bool
  outstanding : List Outstanding
  deriving BEq, DecidableEq

/-- One observable action of the driver, in program order:
server/collaborator calls, registry unlink/link, callback invocation and
freeing of a request.  `cb` carries the node identity, the caller-assigned
request id and the result code passed to the user callback. -/
inductive Event where
  | build_request
  | subscribe_request
  | play_attempt
  | lookup
  | stream_new
  | connect_playback
  | connect_upload
  | kill (sink : Nat)
  | unlink (tag : Nat)
  | cb (tag : Nat) (id : Nat) (code : Int)
  | free (tag : Nat)
  | link (tag : Nat)
  deriving BEq, DecidableEq

/-- Number of occurrences of an event in a trace. -/
def count_ev (e : Event) (l : List Event) : Nat :=
  (l.filter (fun x => x == e)).length

/-- `unlink_before_cb evs seen` checks that every callback invocation in
the trace is preceded by the unlink of the same request (requests whose
tags are in `seen` count as already unlinked). -/
def unlink_before_cb : List Event → List Nat → Bool
  | [], _ => true
  | Event.unlink t :: rest, seen => unlink_before_cb rest (t :: seen)
  | Event.cb t _ _ :: rest, seen => seen.contains t && unlink_before_cb rest seen
  | _ :: rest, seen => unlink_before_cb rest seen

/-- `cb_sees_no_unlink evs seen` checks the opposite ordering: every
callback invocation in the trace happens while its request has NOT yet
been unlinked. -/
def cb_sees_no_unlink : List Event → List Nat → Bool
  | [], _ => true
  | Event.unlink t :: rest, seen => cb_sees_no_unlink rest (t :: seen)
  | Event.cb t _ _ :: rest, seen => !(seen.contains t) && cb_sees_no_unlink rest seen
  | _ :: rest, seen => cb_sees_no_unlink rest seen

/-- Tags recorded by `unlink` events of a trace, newest first, on top of an
initial accumulator; the `seen` list after running `unlink_before_cb`. -/
def seen_after : List Event → List Nat → List Nat
  | [], seen => seen
  | Event.unlink t :: rest, seen => seen_after rest (t :: seen)
  | _ :: rest, seen => seen_after rest seen

/-- Environment of one `subscribe` call: whether `pa_context_subscribe`
returned an operation object, the server errno consulted on failure, and
the indeterminate value of the local variable `ret`, which the source
(pulse.c lines 410-438) never initializes on the success branch. -/
structure SubscribeEnv where
  op_ok : Bool
  errno : Nat
  garbage : Int

/-- `subscribe` (pulse.c lines 410-438).  Guard order as in the source:
state checks, then `ca_return_val_if_fail(!p->subscribed, CA_SUCCESS)`;
then `pa_context_subscribe` is issued, `ret` is assigned only when the
operation could NOT be created, and `p->subscribed = TRUE` is set
unconditionally before `return ret`. -/
def subscribe (p : Private) (env : SubscribeEnv) : Int × List Event × Private :=
  if ¬ p.mainloop ∨ ¬ p.context then ( CA_ERROR_STATE, [], p)
  else if p.subscribed then ( CA_SUCCESS, [], p)
  else
    let ret := if env.op_ok then env.garbage else translate_error env.errno
    (ret, [Event.subscribe_request], { p with subscribed := true })

/-- The registry drain loop shared by `context_state_cb` (pulse.c lines
184-195, on fatal connection state, with the translated connection error)
and `driver_destroy` (lines 332-340, with `CA_ERROR_DESTROYED`): repeatedly
take the list head, `CA_LLIST_REMOVE` it, invoke its callback if present,
and free it. -/
def drain_events : List Outstanding → Int → List Event
  | [], _ => []
  | o :: rest, code =>
      Event.unlink o.tag ::
        ((if o.callback then [Event.cb o.tag o.id code] else []) ++
          (Event.free o.tag :: drain_events rest code))

/-- `pa_context_state_t` (external header). -/
inductive pa_context_state where
  | UNCONNECTED
  | CONNECTING
  | AUTHORIZING
  | SETTING_NAME
  | READY
  | FAILED
  | TERMINATED
  deriving BEq, DecidableEq

/-- `context_state_cb` (pulse.c lines 164-201): on `FAILED` or
`TERMINATED` it drains the whole registry, completing every outstanding
request with the translated connection error; otherwise it only signals
the mainloop. -/
def context_state_cb (p : Private) (state : pa_context_state) (errno : Nat) :
    List Event × Private :=
  if state = pa_context_state.FAILED ∨ state = pa_context_state.TERMINATED then
    (drain_events p.outstanding (translate_error errno), { p with outstanding := [] })
  else ([], p)

/-- `driver_destroy` (pulse.c lines 321-360): stops the mainloop, drains
the registry delivering `CA_ERROR_DESTROYED` to every outstanding request
with a callback, then releases the connection, the mainloop, the cached
theme data and the mutex. -/
def driver_destroy (p : Private) : Int × List Event × Private :=
  ( CA_SUCCESS, drain_events p.outstanding CA_ERROR_DESTROYED,
    { p with outstanding := [], mainloop := false, context := false, theme := false })

/-- `pa_stream_state_t` (external header). -/
inductive pa_stream_state where
  | UNCONNECTED
  | CREATING
  | READY
  | FAILED
  | TERMINATED
  deriving BEq, DecidableEq

/-- Remove the registry node with this identity (`CA_LLIST_REMOVE`). -/
def ll_remove (l : List Outstanding) (tag : Nat) : List Outstanding :=
  l.eraseP (fun o => o.tag == tag)

/-- `stream_state_cb` (pulse.c lines 458-489): when the request is marked
for asynchronous cleanup and the stream reached `FAILED` or `TERMINATED`,
unlink it from the registry, invoke the callback with the translated
stream error (or `CA_ERROR_DESTROYED` on `TERMINATED`), and free it. -/
def stream_state_cb (p : Private) (out : Outstanding) (state : pa_stream_state)
    (errno : Nat) : List Event × Private :=
  if out.clean_up ∧ (state = pa_stream_state.FAILED ∨ state = pa_stream_state.TERMINATED) then
    let err := if state = pa_stream_state.FAILED then translate_error errno
               else CA_ERROR_DESTROYED
    (Event.unlink out.tag ::
       ((if out.callback then [Event.cb out.tag out.id err] else []) ++ [Event.free out.tag]),
     { p with outstanding := ll_remove p.outstanding out.tag })
  else ([], p)

/-- `stream_drain_cb` (pulse.c lines 491-515): unlink the request, invoke
its callback with success or the translated drain error, free it. -/
def stream_drain_cb (p : Private) (out : Outstanding) (success : Bool)
    (errno : Nat) : List Event × Private :=
  let err := if success then CA_SUCCESS else translate_error errno
  (Event.unlink out.tag ::
     ((if out.callback then [Event.cb out.tag out.id err] else []) ++ [Event.free out.tag]),
   { p with outstanding := ll_remove p.outstanding out.tag })

/-- Environment of one `stream_write_cb` invocation: buffer allocation,
the sound-file read (`read_ret < 0` is a read error, otherwise
`bytes_read` bytes were produced, 0 meaning EOF), the results of
`pa_stream_write` / `pa_stream_finish_upload` / `pa_stream_drain`, and the
server errno.  `write_err` is the translated error produced on a
`pa_stream_write` failure (the source feeds the negative return value to
`translate_error`, whose range assertion this would trip). -/
structure WriteEnv where
  malloc_ok : Bool
  read_ret : Int
  bytes_read : Nat
  write_ok : Bool
  write_err : Int
  finish_upload_ok : Bool
  drain_op_ok : Bool
  errno : Nat

/-- The `finish:` label of `stream_write_cb` (pulse.c lines 572-589): if
the request is registry-linked (`clean_up`), unlink it, deliver the error
through the callback and free it; otherwise disconnect the stream, record
the error on the request and signal the waiting caller. -/
def stream_write_finish (p : Private) (out : Outstanding) (ret : Int) :
    List Event × Private × Outstanding :=
  if out.clean_up then
    (Event.unlink out.tag ::
       ((if out.callback then [Event.cb out.tag out.id ret] else []) ++ [Event.free out.tag]),
     { p with outstanding := ll_remove p.outstanding out.tag }, out)
  else ([], p, { out with error := ret })

/-- `stream_write_cb` (pulse.c lines 517-590): pump bytes from the sound
file into the stream; at EOF finish the upload (upload streams) or request
a drain (playback streams); any failure goes to the `finish:` sequence. -/
def stream_write_cb (p : Private) (out : Outstanding) (env : WriteEnv)
    : List Event × Private × Outstanding :=
  if ¬ env.malloc_ok then stream_write_finish p out CA_ERROR_OOM
  else if env.read_ret < 0 then stream_write_finish p out env.read_ret
  else if 0 < env.bytes_read then
    if env.write_ok then ([], p, out)
    else stream_write_finish p out env.write_err
  else if out.type = outstanding_type.OUTSTANDING_UPLOAD then
    if env.finish_upload_ok then ([], p, out)
    else stream_write_finish p out (translate_error env.errno)
  else
    if env.drain_op_ok then ([], p, out)
    else stream_write_finish p out (translate_error env.errno)

/-- `PA_SUBSCRIPTION_EVENT_SINK_INPUT | PA_SUBSCRIPTION_EVENT_REMOVE`
(external header: facility 2, operation 32). -/
def PA_SINK_INPUT_REMOVE : Nat := 34

/-- Second phase of `context_subscribe_cb` (pulse.c lines 233-242): walk
the detached list, invoking each callback with `CA_SUCCESS` and freeing
each request. -/
def subscribe_cb_deliver : List Outstanding → List Event
  | [] => []
  | o :: rest =>
      (if o.callback then [Event.cb o.tag o.id CA_SUCCESS] else []) ++
        (Event.free o.tag :: subscribe_cb_deliver rest)

/-- `context_subscribe_cb` (pulse.c lines 203-243): on a sink-input
removal event, move every `OUTSTANDING_SAMPLE` request with that sink
input off the registry onto a detached list (under the registry lock;
`CA_LLIST_PREPEND` reverses their order), then — outside the lock —
deliver `CA_SUCCESS` through each callback and free each request. -/
def context_subscribe_cb (p : Private) (t : Nat) (idx : Nat) :
    List Event × Private :=
  if t ≠ PA_SINK_INPUT_REMOVE then ([], p)
  else
    let matched := p.outstanding.filter
      (fun o => o.type == outstanding_type.OUTSTANDING_SAMPLE && o.sink_input == idx)
    let rest := p.outstanding.filter
      (fun o => !(o.type == outstanding_type.OUTSTANDING_SAMPLE && o.sink_input == idx))
    (matched.map (fun o => Event.unlink o.tag) ++ subscribe_cb_deliver matched.reverse,
     { p with outstanding := rest })

/-- Environment of a `driver_cancel` call: whether
`pa_context_kill_sink_input` fails (returns NULL) for a given sink input,
the server errno read on such a failure, and the indeterminate value of
the per-iteration local `ret2`, which the source (pulse.c line 808) never
initializes on the successful-kill branch. -/
structure CancelEnv where
  kill_fails : Nat → Bool
  errno : Nat
  garbage : Int

/-- Whether a registry entry matches a `cancel(id)` request: the negation
of the `continue` condition at pulse.c lines 811-814. -/
def cancel_matches (cid : Nat) (o : Outstanding) : Bool :=
  !(o.type == outstanding_type.OUTSTANDING_UPLOAD || o.id != cid ||
    o.sink_input == PA_INVALID_INDEX)

/-- The scan loop of `driver_cancel` (pulse.c lines 807-833).  For every
matching entry: ask the server to kill the sink input; on kill failure set
`ret2` to the translated error, otherwise `ret2` keeps its indeterminate
value; fold `ret2` into the first-error result; invoke the callback with
`CA_ERROR_CANCELED` (note: BEFORE the `CA_LLIST_REMOVE`); unlink and free
the entry.  Returns (result, trace, surviving registry). -/
def cancel_loop (cid : Nat) (env : CancelEnv) :
    List Outstanding → Int → Int × List Event × List Outstanding
  | [], ret => (ret, [], [])
  | o :: rest, ret =>
    if cancel_matches cid o then
      let ret2 := if env.kill_fails o.sink_input then translate_error env.errno
                  else env.garbage
      let ret' := if ret2 ≠ 0 ∧ ret = CA_SUCCESS then ret2 else ret
      let evs0 := Event.kill o.sink_input ::
        ((if o.callback then [Event.cb o.tag o.id CA_ERROR_CANCELED] else []) ++
          [Event.unlink o.tag, Event.free o.tag])
      let r := cancel_loop cid env rest ret'
      (r.fst, evs0 ++ r.snd.fst, r.snd.snd)
    else
      let r := cancel_loop cid env rest ret
      (r.fst, r.snd.fst, o :: r.snd.snd)

/-- `driver_cancel` (pulse.c lines 786-840). -/
def driver_cancel (p : Private) (cid : Nat) (env : CancelEnv) :
    Int × List Event × Private :=
  if ¬ p.mainloop ∨ ¬ p.context then ( CA_ERROR_STATE, [], p)
  else
    let r := cancel_loop cid env p.outstanding CA_SUCCESS
    (r.fst, r.snd.fst, { p with outstanding := r.snd.snd })

/-- Environment of a `driver_cache` call: result of `ca_lookup_sound`,
of `pa_stream_new_with_proplist`, of `pa_stream_connect_upload`, whether
the upload wait loop ends in `PA_STREAM_FAILED` rather than
`PA_STREAM_TERMINATED`, and the server errno read at failure points. -/
structure CacheEnv where
  lookup_ok : Bool
  lookup_err : Int
  stream_new_ok : Bool
  connect_ok : Bool
  upload_failed : Bool
  errno : Nat

/-- Result of `driver_cache`: return code and observable trace.  The local
`struct outstanding` of a cache operation is never linked into the
registry and is freed unconditionally before return. -/
structure CacheRes where
  ret : Int
  events : List Event

/-- `driver_cache` (pulse.c lines 842-952).  Note the condition at line
889: the source compares the STRING POINTER `ct` (the raw value returned
by `pa_proplist_gets` for the cache-control property) against the enum
constant `CA_CACHE_CONTROL_NEVER`, whose value is 0 — so the test holds
exactly when `ct` is NULL, i.e. when the property is ABSENT; a present
property (a non-null pointer) never equals 0.  The parsed `cache_control`
variable is dead after its assignment, as in the source. -/
def driver_cache (p : Private) (proplist : PaProplist) (env : CacheEnv) : CacheRes :=
  if ¬ p.mainloop ∨ ¬ p.context then ⟨ CA_ERROR_STATE, []⟩
  else
    let l := proplist
    match pa_proplist_gets l CA_PROP_EVENT_ID with
    | none => ⟨ CA_ERROR_INVALID, []⟩
    | some _n =>
      let ct := pa_proplist_gets l CA_PROP_CANBERRA_CACHE_CONTROL
      let parse_failed := match ct with
        | some s => (ca_parse_cache_control s).isNone
        | none => false
      if parse_failed then ⟨ CA_ERROR_INVALID, []⟩
      else if ct.isNone then ⟨ CA_ERROR_INVALID, []⟩
      else
        let _l2 := strip_canberra_data l
        if ¬ env.lookup_ok then ⟨env.lookup_err, [Event.lookup]⟩
        else if ¬ env.stream_new_ok then
          ⟨translate_error env.errno, [Event.lookup, Event.stream_new]⟩
        else if ¬ env.connect_ok then
          ⟨translate_error env.errno, [Event.lookup, Event.stream_new, Event.connect_upload]⟩
        else if env.upload_failed then
          ⟨translate_error env.errno, [Event.lookup, Event.stream_new, Event.connect_upload]⟩
        else ⟨ CA_SUCCESS, [Event.lookup, Event.stream_new, Event.connect_upload]⟩

/-- Server behaviour of one `pa_context_play_sample_with_proplist` round of
`driver_play`: whether the operation object was created, the sink-input
index delivered to `play_sample_cb` ( `PA_INVALID_INDEX` meaning failure),
and the server errno consulted on failure. -/
structure PlayAttempt where
  op_ok : Bool
  idx : Nat
  errno : Nat

/-- Behaviour of the direct-streaming fallback of `driver_play`: the
`ca_lookup_sound` result, `pa_stream_new_with_proplist` and
`pa_stream_connect_playback` results, the terminal state observed by the
readiness wait loop, the stream index returned by `pa_stream_get_index`,
the value of `out->error` observed if the wait ends in `TERMINATED` (that
field is written by the concurrent write callback's failure path), and the
server errno. -/
inductive stream_wait_outcome where
  | ready
  | failed
  | terminated
  deriving BEq, DecidableEq

/-- See `stream_wait_outcome`. -/
structure StreamEnv where
  lookup_ok : Bool
  lookup_err : Int
  stream_new_ok : Bool
  connect_ok : Bool
  wait_outcome : stream_wait_outcome
  idx : Nat
  terminated_out_error : Int
  errno : Nat

/-- Environment of one `driver_play` call: one `PlayAttempt` per retry
round, one `CacheEnv` per upload, the `subscribe` environment, whether the
`strtod` parse of a present volume string succeeds (floating point itself
is not modelled), and the fallback streaming environment. -/
structure PlayEnv where
  attempts : List PlayAttempt
  caches : List CacheEnv
  sub : SubscribeEnv
  vol_ok : Bool
  stream : StreamEnv

/-- Result of the retry loop of `driver_play`: whether the loop exited via
`goto finish` (as opposed to `break`, which falls through to direct
streaming), the value of the local `ret`, the recorded request error
`out->error`, the recorded `out->sink_input`, and the trace. -/
structure LoopRes where
  exit_finish : Bool
  ret : Int
  err : Int
  sink : Nat
  events : List Event

/-- Default `PlayAttempt` used past the end of the environment list. -/
def default_attempt : PlayAttempt := { op_ok := true, idx := PA_INVALID_INDEX, errno := 0 }

/-- Default `CacheEnv` used past the end of the environment list. -/
def default_cache_env : CacheEnv :=
  { lookup_ok := true, lookup_err := 0, stream_new_ok := true, connect_ok := true,
    upload_failed := false, errno := 0 }

/-- Outcome of one round of the retry loop of `driver_play`, before the
`--try` bound is consulted: `exit_finish` is a `goto finish` (operation
creation failed, or the recorded result was not `CA_ERROR_NOTFOUND`),
`exit_break` is the `break` taken when cache-control is `never`, and
`retry` means the result was `NOTFOUND` and cache-control permits the
upload-and-retry fallback.  Each carries the values of the locals
(`ret`, `out->error`, `out->sink_input`) after the round. -/
inductive RoundStep where
  | exit_finish (ret err : Int) (sink : Nat)
  | exit_break (ret err : Int) (sink : Nat)
  | retry (ret err : Int) (sink : Nat)

/-- One round of the retry loop of `driver_play` (pulse.c lines 672-695):
ask the server to play the named sample; wait for `play_sample_cb` to
record success (with the sink input) or the translated error on the
request.  If the operation could not even be created, `goto finish` with
the translated errno.  If the recorded result is anything other than
`CA_ERROR_NOTFOUND`, the code jumps to `finish:` WITHOUT assigning the
recorded result to the local `ret` (lines 690-691 of the source), so
`exit_finish` carries the incoming `ret` unchanged.  On `NOTFOUND`,
cache-control `never` breaks out to direct streaming; otherwise retry. -/
def play_round (env : PlayEnv) (cc : ca_cache_control) (i : Nat)
    (ret err : Int) (sink : Nat) : RoundStep :=
  let a := env.attempts.getD i default_attempt
  if ¬ a.op_ok then RoundStep.exit_finish (translate_error a.errno) err sink
  else
    let err2 := if a.idx ≠ PA_INVALID_INDEX then CA_SUCCESS else translate_error a.errno
    let sink2 := if a.idx ≠ PA_INVALID_INDEX then a.idx else sink
    if err2 ≠ CA_ERROR_NOTFOUND then RoundStep.exit_finish ret err2 sink2
    else if cc = ca_cache_control.CA_CACHE_CONTROL_NEVER then
      RoundStep.exit_break ret err2 sink2
    else RoundStep.retry ret err2 sink2

/-- The retry loop of `driver_play` (pulse.c lines 672-704), with `tryn`
the current value of the C variable `try` (initially 3).  The patterns
`0` and `1` are the rounds in which `--try <= 0` holds afterwards, so a
`NOTFOUND`-with-retry outcome still breaks out of the loop; with `tryn`
at least 2, such an outcome runs `ret = driver_cache(c, proplist)`
(aborting to `finish:` if the upload fails) and repeats the loop with
`try` decremented. -/
def play_loop (p : Private) (proplist : PaProplist) (env : PlayEnv)
    (cc : ca_cache_control) : Nat → Nat → Int → Int → Nat → LoopRes
  | 0, i, ret, err, sink =>
    (match play_round env cc i ret err sink with
      | RoundStep.exit_finish r e s =>
        { exit_finish := true, ret := r, err := e, sink := s, events := [Event.play_attempt] }
      | RoundStep.exit_break r e s =>
        { exit_finish := false, ret := r, err := e, sink := s, events := [Event.play_attempt] }
      | RoundStep.retry r e s =>
        { exit_finish := false, ret := r, err := e, sink := s, events := [Event.play_attempt] })
  | 1, i, ret, err, sink =>
    (match play_round env cc i ret err sink with
      | RoundStep.exit_finish r e s =>
        { exit_finish := true, ret := r, err := e, sink := s, events := [Event.play_attempt] }
      | RoundStep.exit_break r e s =>
        { exit_finish := false, ret := r, err := e, sink := s, events := [Event.play_attempt] }
      | RoundStep.retry r e s =>
        { exit_finish := false, ret := r, err := e, sink := s, events := [Event.play_attempt] })
  | Nat.succ (Nat.succ t), i, ret, err, sink =>
    (match play_round env cc i ret err sink with
      | RoundStep.exit_finish r e s =>
        { exit_finish := true, ret := r, err := e, sink := s, events := [Event.play_attempt] }
      | RoundStep.exit_break r e s =>
        { exit_finish := false, ret := r, err := e, sink := s, events := [Event.play_attempt] }
      | RoundStep.retry _r e s =>
        if (driver_cache p proplist (env.caches.getD i default_cache_env)).ret < 0 then
          { exit_finish := true,
            ret := (driver_cache p proplist (env.caches.getD i default_cache_env)).ret,
            err := e, sink := s,
            events := Event.play_attempt ::
              (driver_cache p proplist (env.caches.getD i default_cache_env)).events }
        else
          { play_loop p proplist env cc (Nat.succ t) (i + 1)
              (driver_cache p proplist (env.caches.getD i default_cache_env)).ret e s with
            events := Event.play_attempt ::
              ((driver_cache p proplist (env.caches.getD i default_cache_env)).events ++
                (play_loop p proplist env cc (Nat.succ t) (i + 1)
                  (driver_cache p proplist (env.caches.getD i default_cache_env)).ret e
                  s).events) })

/-- Result of `driver_play`: return code, trace, snapshot of the request
at return time (`none` when a guard fired before the request was built),
whether the request was linked into the registry, and the final driver
state. -/
structure PlayRes where
  ret : Int
  events : List Event
  out : Option Outstanding
  linked : Bool
  p : Private

/-- The `finish:` label of `driver_play` (pulse.c lines 766-783): when the
call succeeded and the request needs later cleanup (direct stream, or a
callback was supplied), mark it `clean_up` and prepend it to the registry;
otherwise free it.  The temporary proplist and name string are released in
both cases. -/
def play_finish (p : Private) (evs : List Event) (ret : Int) (o : Outstanding)
    (cb : Bool) : PlayRes :=
  if ret = CA_SUCCESS ∧ (o.type = outstanding_type.OUTSTANDING_STREAM ∨ cb) then
    let o2 := { o with clean_up := true }
    { ret := ret, events := evs ++ [Event.link o2.tag], out := some o2, linked := true,
      p := { p with outstanding := o2 :: p.outstanding } }
  else
    { ret := ret, events := evs ++ [Event.free o.tag], out := some o, linked := false,
      p := p }

/-- The retry loop plus direct-streaming fallback of `driver_play`
(pulse.c lines 672-764), entered once argument validation and the optional
`subscribe` have succeeded: run the retry loop with `try = 3`; if it exits
via `goto finish`, finish with the loop's `ret`; otherwise switch the
request to `OUTSTANDING_STREAM` and stream directly — resolve the sound
file, create and connect a playback stream, wait for it to become ready
(recording the sink input) or fail.  `evs1` is the trace accumulated so
far and `ret0` the current value of the local `ret`. -/
def play_run (p2 : Private) (proplist : PaProplist) (env : PlayEnv)
    (cc : ca_cache_control) (evs1 : List Event) (ret0 : Int) (o0 : Outstanding)
    (cb : Bool) : PlayRes :=
  let lr := play_loop p2 proplist env cc 3 0 ret0 CA_SUCCESS PA_INVALID_INDEX
  let evs2 := evs1 ++ lr.events
  if lr.exit_finish then
    play_finish p2 evs2 lr.ret { o0 with error := lr.err, sink_input := lr.sink } cb
  else
    let o1 := { o0 with
                type := outstanding_type.OUTSTANDING_STREAM,
                error := lr.err, sink_input := lr.sink }
    if ¬ env.stream.lookup_ok then
      play_finish p2 (evs2 ++ [Event.lookup]) env.stream.lookup_err o1 cb
    else
      let o2 := { o1 with file := true }
      let evs3 := evs2 ++ [Event.lookup, Event.stream_new]
      if ¬ env.stream.stream_new_ok then
        play_finish p2 evs3 (translate_error env.stream.errno) o2 cb
      else
        let o3 := { o2 with stream := true }
        let evs4 := evs3 ++ [Event.connect_playback]
        if ¬ env.stream.connect_ok then
          play_finish p2 evs4 (translate_error env.stream.errno) o3 cb
        else
          match env.stream.wait_outcome with
          | stream_wait_outcome.failed =>
            play_finish p2 evs4 (translate_error env.stream.errno) o3 cb
          | stream_wait_outcome.terminated =>
            play_finish p2 evs4 env.stream.terminated_out_error o3 cb
          | stream_wait_outcome.ready =>
            if env.stream.idx = PA_INVALID_INDEX then
              play_finish p2 evs4 (translate_error env.stream.errno) o3 cb
            else
              play_finish p2 evs4 CA_SUCCESS
                { o3 with sink_input := env.stream.idx } cb

/-- `driver_play` (pulse.c lines 598-784).  `tag` models the address of the
freshly allocated request; `cb`/`userdata` model whether the caller passed
a completion callback / a non-NULL userdata pointer.  Guard order as in
the source: the `!userdata || cb` argument check (line 613) fires before
the context-state checks and before the request is built or any external
call is made. -/
def driver_play (p : Private) (tag id : Nat) (proplist : PaProplist)
    (cb userdata : Bool) (env : PlayEnv) : PlayRes :=
  if userdata ∧ ¬ cb then
    { ret := CA_ERROR_INVALID, events := [], out := none, linked := false, p := p }
  else if ¬ p.mainloop ∨ ¬ p.context then
    { ret := CA_ERROR_STATE, events := [], out := none, linked := false, p := p }
  else
    let o0 : Outstanding :=
      { tag := tag, type := outstanding_type.OUTSTANDING_SAMPLE, id := id,
        sink_input := PA_INVALID_INDEX, stream := false, callback := cb,
        userdata := userdata, file := false, error := CA_SUCCESS, clean_up := false }
    let evs0 := [Event.build_request]
    let l := proplist
    match pa_proplist_gets l CA_PROP_EVENT_ID with
    | none => play_finish p evs0 CA_ERROR_INVALID o0 cb
    | some _n =>
      if (pa_proplist_gets l CA_PROP_CANBERRA_VOLUME).isSome ∧ ¬ env.vol_ok then
        play_finish p evs0 CA_ERROR_INVALID o0 cb
      else
        let cc0 := match pa_proplist_gets l CA_PROP_CANBERRA_CACHE_CONTROL with
          | none => some ca_cache_control.CA_CACHE_CONTROL_NEVER
          | some s => ca_parse_cache_control s
        match cc0 with
        | none => play_finish p evs0 CA_ERROR_INVALID o0 cb
        | some cc =>
          let _l2 := strip_canberra_data l
          let sub := if cb then subscribe p env.sub else ( CA_SUCCESS, [], p)
          let p2 := sub.snd.snd
          let evs1 := evs0 ++ sub.snd.fst
          if sub.fst < 0 then play_finish p2 evs1 sub.fst o0 cb
          else play_run p2 proplist env cc evs1 sub.fst o0 cb

/-- A valid, freshly opened driver context with an empty registry. -/
def fresh_private : Private :=
  { mainloop := true, context := true, theme := false, subscribed := false,
    outstanding := [] }

/-- Fallback streaming environment in which everything succeeds and the
stream gets index 42. -/
def ok_stream_env : StreamEnv :=
  { lookup_ok := true, lookup_err := 0, stream_new_ok := true, connect_ok := true,
    wait_outcome := stream_wait_outcome.ready, idx := 42,
    terminated_out_error := 0, errno := 0 }

/-- A play-sample round answered with the given server error code. -/
def attempt_fail (e : Nat) : PlayAttempt :=
  { op_ok := true, idx := PA_INVALID_INDEX, errno := e }

/-- A play-sample round answered with success and the given sink input. -/
def attempt_ok (idx : Nat) : PlayAttempt :=
  { op_ok := true, idx := idx, errno := 0 }

/-- The caller-assigned ids and result codes of the callback invocations
of a trace, in order. -/
def cb_events : List Event → List (Nat × Int)
  | [] => []
  | Event.cb _ i c :: r => (i, c) :: cb_events r
  | _ :: r => cb_events r

/-- The tags freed in a trace, in order. -/
def free_events : List Event → List Nat
  | [] => []
  | Event.free t :: r => t :: free_events r
  | _ :: r => free_events r

/-- A play request proplist for the event "bell" with cache-control
`volatile` (retries permitted). -/
def bell_proplist : PaProplist :=
  [("event.id", "bell"), ("canberra.cache-control", "volatile")]

/-- Server behaviour of the C3 scenario: the named-sample play reports
NotFound (`PA_ERR_NOENTITY`) twice, then succeeds on attempt 3 with sink
input 42; both cache uploads succeed. -/
def bell_env : PlayEnv :=
  { attempts := [attempt_fail PA_ERR_NOENTITY, attempt_fail PA_ERR_NOENTITY, attempt_ok 42],
    caches := [default_cache_env, default_cache_env],
    sub := ⟨true, 0, 0⟩, vol_ok := true, stream := ok_stream_env }

/-- Server behaviour in which every named-sample play attempt reports
NotFound and both cache uploads succeed, so the retry loop exhausts its
bound and `driver_play` falls back to direct streaming. -/
def notfound_env : PlayEnv :=
  { attempts := [attempt_fail PA_ERR_NOENTITY, attempt_fail PA_ERR_NOENTITY,
      attempt_fail PA_ERR_NOENTITY],
    caches := [default_cache_env, default_cache_env],
    sub := ⟨true, 0, 0⟩, vol_ok := true, stream := ok_stream_env }

theorem count_ev_append (e : Event) (a b : List Event) :
    count_ev e (a ++ b) = count_ev e a + count_ev e b := by
  simp [count_ev, List.filter_append]

theorem count_ev_nil (e : Event) : count_ev e [] = 0 := rfl

theorem subscribe_no_attempt (p : Private) (env : SubscribeEnv) :
    count_ev Event.play_attempt (subscribe p env).snd.fst = 0 ∧
    count_ev Event.connect_upload (subscribe p env).snd.fst = 0 := by
  unfold subscribe
  split
  · exact ⟨rfl, rfl⟩
  · split
    · exact ⟨rfl, rfl⟩
    · exact ⟨rfl, rfl⟩

theorem ite_of_false_eq_true {α : Type} (a b : α) : (if false = true then a else b) = b := rfl

theorem ite_of_true_eq_true {α : Type} (a b : α) : (if true = true then a else b) = a := rfl

theorem count_ev_cons (e x : Event) (l : List Event) :
    count_ev e (x :: l) = (if (x == e) = true then 1 else 0) + count_ev e l := by
  simp only [count_ev, List.filter_cons]
  split
  · simp [Nat.add_comm]
  · simp

theorem driver_cache_events_shape (p : Private) (pl : PaProplist) (env : CacheEnv) :
    (driver_cache p pl env).events = [] ∨
    (driver_cache p pl env).events = [Event.lookup] ∨
    (driver_cache p pl env).events = [Event.lookup, Event.stream_new] ∨
    (driver_cache p pl env).events = [Event.lookup, Event.stream_new, Event.connect_upload] := by
  unfold driver_cache
  split
  · exact Or.inl rfl
  rcases hg : pa_proplist_gets pl CA_PROP_EVENT_ID with _ | n
  · simp [hg]
  · simp only [hg]
    repeat' split
    all_goals simp

theorem driver_cache_counts (p : Private) (pl : PaProplist) (env : CacheEnv) :
    count_ev Event.play_attempt (driver_cache p pl env).events = 0 ∧
    count_ev Event.connect_upload (driver_cache p pl env).events ≤ 1 := by
  rcases driver_cache_events_shape p pl env with h | h | h | h
  all_goals rw [h]
  all_goals exact ⟨by decide, by decide⟩

theorem play_finish_counts (p : Private) (evs : List Event) (ret : Int)
    (o : Outstanding) (cb : Bool) :
    count_ev Event.play_attempt (play_finish p evs ret o cb).events =
      count_ev Event.play_attempt evs ∧
    count_ev Event.connect_upload (play_finish p evs ret o cb).events =
      count_ev Event.connect_upload evs := by
  unfold play_finish
  split
  all_goals simp [count_ev_append, count_ev]
  all_goals exact ⟨rfl, rfl⟩

set_option maxHeartbeats 2000000 in
theorem play_loop_counts (p : Private) (pl : PaProplist) (env : PlayEnv)
    (cc : ca_cache_control) :
    ∀ tryn i ret err sink,
      (1 ≤ tryn →
        count_ev Event.play_attempt (play_loop p pl env cc tryn i ret err sink).events ≤ tryn) ∧
      count_ev Event.connect_upload (play_loop p pl env cc tryn i ret err sink).events ≤
        tryn - 1 := by
  intro tryn i ret err sink
  have hb1 : (Event.play_attempt == Event.play_attempt) = true := rfl
  have hb2 : (Event.play_attempt == Event.connect_upload) = false := rfl
  induction tryn, i, ret, err, sink using play_loop.induct p pl env cc with
  | case1 i ret err sink r e s hx =>
    simp [play_loop, hx, count_ev_cons, count_ev_nil, hb1, hb2]
  | case2 i ret err sink r e s hx =>
    simp [play_loop, hx, count_ev_cons, count_ev_nil, hb1, hb2]
  | case3 i ret err sink r e s hx =>
    simp [play_loop, hx, count_ev_cons, count_ev_nil, hb1, hb2]
  | case4 i ret err sink r e s hx =>
    simp [play_loop, hx, count_ev_cons, count_ev_nil, hb1, hb2]
  | case5 i ret err sink r e s hx =>
    simp [play_loop, hx, count_ev_cons, count_ev_nil, hb1, hb2]
  | case6 i ret err sink r e s hx =>
    simp [play_loop, hx, count_ev_cons, count_ev_nil, hb1, hb2]
  | case7 t i ret err sink r e s hx =>
    simp [play_loop, hx, count_ev_cons, count_ev_nil, hb1, hb2]
  | case8 t i ret err sink r e s hx =>
    simp [play_loop, hx, count_ev_cons, count_ev_nil, hb1, hb2]
  | case9 t i ret err sink r e s hx h4 =>
    have hc := driver_cache_counts p pl (env.caches.getD i default_cache_env)
    simp only [play_loop, hx]
    rw [if_pos h4]
    simp only [count_ev_cons, count_ev_append, count_ev_nil, hb1, hb2,
      ite_of_false_eq_true, ite_of_true_eq_true, if_true, if_false]
    omega
  | case10 t i ret err sink r e s hx h4 ih =>
    obtain ⟨ih1, ih2⟩ := ih
    have ih1' := ih1 (by omega)
    have hc := driver_cache_counts p pl (env.caches.getD i default_cache_env)
    simp only [play_loop, hx]
    rw [if_neg h4]
    dsimp only
    simp only [count_ev_cons, count_ev_append, count_ev_nil, hb1, hb2,
      ite_of_false_eq_true, ite_of_true_eq_true, if_true, if_false, Nat.succ_eq_add_one]
    omega

theorem play_finish_count_attempt (p : Private) (evs : List Event) (ret : Int)
    (o : Outstanding) (cb : Bool) :
    count_ev Event.play_attempt (play_finish p evs ret o cb).events =
      count_ev Event.play_attempt evs :=
  (play_finish_counts p evs ret o cb).1

theorem play_finish_count_upload (p : Private) (evs : List Event) (ret : Int)
    (o : Outstanding) (cb : Bool) :
    count_ev Event.connect_upload (play_finish p evs ret o cb).events =
      count_ev Event.connect_upload evs :=
  (play_finish_counts p evs ret o cb).2

theorem play_run_counts (p2 : Private) (pl : PaProplist) (env : PlayEnv)
    (cc : ca_cache_control) (evs1 : List Event) (ret0 : Int) (o0 : Outstanding)
    (cb : Bool) :
    count_ev Event.play_attempt (play_run p2 pl env cc evs1 ret0 o0 cb).events ≤
      count_ev Event.play_attempt evs1 + 3 ∧
    count_ev Event.connect_upload (play_run p2 pl env cc evs1 ret0 o0 cb).events ≤
      count_ev Event.connect_upload evs1 + 2 := by
  have hl := play_loop_counts p2 pl env cc 3 0 ret0 CA_SUCCESS PA_INVALID_INDEX
  have hl1 := hl.1 (by omega)
  have hl2 := hl.2
  have b1 : (Event.lookup == Event.play_attempt) = false := rfl
  have b2 : (Event.lookup == Event.connect_upload) = false := rfl
  have b3 : (Event.stream_new == Event.play_attempt) = false := rfl
  have b4 : (Event.stream_new == Event.connect_upload) = false := rfl
  have b5 : (Event.connect_playback == Event.play_attempt) = false := rfl
  have b6 : (Event.connect_playback == Event.connect_upload) = false := rfl
  unfold play_run
  cases hfin : (play_loop p2 pl env cc 3 0 ret0 CA_SUCCESS PA_INVALID_INDEX).exit_finish
  all_goals simp only [hfin, ite_of_false_eq_true, ite_of_true_eq_true]
  all_goals repeat' split
  all_goals simp only [play_finish_count_attempt, play_finish_count_upload,
    count_ev_append, count_ev_cons, count_ev_nil, b1, b2, b3, b4, b5, b6,
    ite_of_false_eq_true]
  all_goals omega

theorem play_run_counts_le (p2 : Private) (pl : PaProplist) (env : PlayEnv)
    (cc : ca_cache_control) (evs1 : List Event) (ret0 : Int) (o0 : Outstanding)
    (cb : Bool)
    (h1 : count_ev Event.play_attempt evs1 = 0)
    (h2 : count_ev Event.connect_upload evs1 = 0) :
    count_ev Event.play_attempt (play_run p2 pl env cc evs1 ret0 o0 cb).events ≤ 3 ∧
    count_ev Event.connect_upload (play_run p2 pl env cc evs1 ret0 o0 cb).events ≤ 2 := by
  have h := play_run_counts p2 pl env cc evs1 ret0 o0 cb
  omega

theorem subscribe_branch_counts (p : Private) (cb : Bool) (env : SubscribeEnv) :
    count_ev Event.play_attempt
      (if cb then subscribe p env else ( CA_SUCCESS, [], p)).snd.fst = 0 ∧
    count_ev Event.connect_upload
      (if cb then subscribe p env else ( CA_SUCCESS, [], p)).snd.fst = 0 := by
  cases cb
  · exact ⟨rfl, rfl⟩
  · simpa using subscribe_no_attempt p env

theorem driver_play_counts (p : Private) (tag id : Nat) (pl : PaProplist)
    (cb ud : Bool) (env : PlayEnv) :
    count_ev Event.play_attempt (driver_play p tag id pl cb ud env).events ≤ 3 ∧
    count_ev Event.connect_upload (driver_play p tag id pl cb ud env).events ≤ 2 := by
  have bb1 : (Event.build_request == Event.play_attempt) = false := rfl
  have bb2 : (Event.build_request == Event.connect_upload) = false := rfl
  unfold driver_play
  split
  · exact ⟨by simp [count_ev], by simp [count_ev]⟩
  split
  · exact ⟨by simp [count_ev], by simp [count_ev]⟩
  rcases hg : pa_proplist_gets pl CA_PROP_EVENT_ID with _ | n
  · simp only [hg, play_finish_count_attempt, play_finish_count_upload]
    exact ⟨by decide, by decide⟩
  simp only [hg]
  split
  · simp only [play_finish_count_attempt, play_finish_count_upload]
    exact ⟨by decide, by decide⟩
  rcases hcc : (match pa_proplist_gets pl CA_PROP_CANBERRA_CACHE_CONTROL with
    | none => some ca_cache_control.CA_CACHE_CONTROL_NEVER
    | some s => ca_parse_cache_control s) with _ | cc
  · simp only [hcc, play_finish_count_attempt, play_finish_count_upload]
    exact ⟨by decide, by decide⟩
  simp only [hcc]
  cases hcb : cb
  · simp only [ite_of_false_eq_true]
    split
    · simp only [play_finish_count_attempt, play_finish_count_upload]
      exact ⟨by simp only [count_ev]; decide, by simp only [count_ev]; decide⟩
    · exact play_run_counts_le _ _ _ _ _ _ _ _
        (by simp only [count_ev]; decide) (by simp only [count_ev]; decide)
  · have hs := subscribe_no_attempt p env.sub
    simp only [eq_self_iff_true, if_true, ite_of_true_eq_true]
    split
    · simp only [play_finish_count_attempt, play_finish_count_upload, count_ev_append,
        count_ev_cons, count_ev_nil, bb1, bb2, ite_of_false_eq_true, hs.1, hs.2]
      omega
    · exact play_run_counts_le _ _ _ _ _ _ _ _
        (by simp only [count_ev_append, count_ev_cons, count_ev_nil, bb1,
              ite_of_false_eq_true, hs.1])
        (by simp only [count_ev_append, count_ev_cons, count_ev_nil, bb2,
              ite_of_false_eq_true, hs.2])

theorem contains_of_mem {l : List Nat} {a : Nat} (h : a ∈ l) : l.contains a = true := by
  induction l with
  | nil => cases h
  | cons x xs ih =>
    rcases List.mem_cons.mp h with h1 | h2
    · simp [List.contains_cons, h1]
    · simp only [List.contains_cons, ih h2, Bool.or_true]

theorem seen_after_append (a b : List Event) (seen : List Nat) :
    seen_after (a ++ b) seen = seen_after b (seen_after a seen) := by
  induction a generalizing seen with
  | nil => rfl
  | cons e rest ih =>
    cases e <;> simp [seen_after, ih]

theorem unlink_before_cb_append (a b : List Event) (seen : List Nat) :
    unlink_before_cb (a ++ b) seen =
      (unlink_before_cb a seen && unlink_before_cb b (seen_after a seen)) := by
  induction a generalizing seen with
  | nil => rfl
  | cons e rest ih =>
    cases e <;> simp [unlink_before_cb, seen_after, ih, Bool.and_assoc]

theorem cb_sees_no_unlink_append (a b : List Event) (seen : List Nat) :
    cb_sees_no_unlink (a ++ b) seen =
      (cb_sees_no_unlink a seen && cb_sees_no_unlink b (seen_after a seen)) := by
  induction a generalizing seen with
  | nil => rfl
  | cons e rest ih =>
    cases e <;> simp [cb_sees_no_unlink, seen_after, ih, Bool.and_assoc]

theorem drain_events_unlink_before_cb (regs : List Outstanding) (code : Int) :
    ∀ seen, unlink_before_cb (drain_events regs code) seen = true := by
  induction regs with
  | nil => intro seen; rfl
  | cons o rest ih =>
    intro seen
    by_cases hcb : o.callback
    · simp [drain_events, unlink_before_cb, hcb, ih]
    · simp [drain_events, unlink_before_cb, hcb, ih]

theorem drain_events_cb_events (regs : List Outstanding) (code : Int) :
    cb_events (drain_events regs code) =
      regs.filterMap (fun o => if o.callback then some (o.id, code) else none) := by
  induction regs with
  | nil => rfl
  | cons o rest ih =>
    by_cases hcb : o.callback
    · simp [drain_events, cb_events, hcb, ih, List.filterMap_cons]
    · simp [drain_events, cb_events, hcb, ih, List.filterMap_cons]

theorem drain_events_free_events (regs : List Outstanding) (code : Int) :
    free_events (drain_events regs code) = regs.map Outstanding.tag := by
  induction regs with
  | nil => rfl
  | cons o rest ih =>
    by_cases hcb : o.callback
    · simp [drain_events, free_events, hcb, ih]
    · simp [drain_events, free_events, hcb, ih]

theorem context_state_cb_unlink_before_cb (p : Private) (st : pa_context_state)
    (errno : Nat) :
    unlink_before_cb (context_state_cb p st errno).fst [] = true := by
  unfold context_state_cb
  split
  · exact drain_events_unlink_before_cb _ _ _
  · rfl

theorem driver_destroy_unlink_before_cb (p : Private) :
    unlink_before_cb (driver_destroy p).snd.fst [] = true :=
  drain_events_unlink_before_cb _ _ _

theorem stream_drain_cb_unlink_before_cb (p : Private) (out : Outstanding)
    (success : Bool) (errno : Nat) :
    unlink_before_cb (stream_drain_cb p out success errno).fst [] = true := by
  unfold stream_drain_cb
  by_cases h : out.callback <;> simp [unlink_before_cb, h]

theorem stream_state_cb_unlink_before_cb (p : Private) (out : Outstanding)
    (st : pa_stream_state) (errno : Nat) :
    unlink_before_cb (stream_state_cb p out st errno).fst [] = true := by
  unfold stream_state_cb
  split
  · by_cases h : out.callback <;> simp [unlink_before_cb, h]
  · rfl

theorem stream_write_finish_unlink_before_cb (p : Private) (out : Outstanding)
    (ret : Int) :
    unlink_before_cb (stream_write_finish p out ret).fst [] = true := by
  unfold stream_write_finish
  split
  · by_cases h : out.callback <;> simp [unlink_before_cb, h]
  · rfl

theorem stream_write_cb_unlink_before_cb (p : Private) (out : Outstanding)
    (env : WriteEnv) :
    unlink_before_cb (stream_write_cb p out env).fst [] = true := by
  unfold stream_write_cb
  repeat' split
  all_goals first
    | rfl
    | exact stream_write_finish_unlink_before_cb _ _ _

theorem subscribe_cb_deliver_unlink_before_cb :
    ∀ (l : List Outstanding) (seen : List Nat),
      (∀ o ∈ l, seen.contains o.tag = true) →
      unlink_before_cb (subscribe_cb_deliver l) seen = true := by
  intro l
  induction l with
  | nil => intro seen _; rfl
  | cons o rest ih =>
    intro seen h
    have h0 : seen.contains o.tag = true := h o (List.mem_cons_self o rest)
    have hrest : ∀ o2 ∈ rest, seen.contains o2.tag = true :=
      fun o2 ho2 => h o2 (List.mem_cons_of_mem o ho2)
    have hmem : o.tag ∈ seen := by simpa using h0
    by_cases hcb : o.callback
    · simp [subscribe_cb_deliver, unlink_before_cb, hcb, h0, hmem, ih seen hrest]
    · simp [subscribe_cb_deliver, unlink_before_cb, hcb, ih seen hrest]

theorem map_unlink_unlink_before_cb :
    ∀ (l : List Outstanding) (seen : List Nat),
      unlink_before_cb (l.map (fun o => Event.unlink o.tag)) seen = true := by
  intro l
  induction l with
  | nil => intro seen; rfl
  | cons o rest ih => intro seen; simp [unlink_before_cb, ih]

theorem seen_after_map_unlink :
    ∀ (l : List Outstanding) (seen : List Nat),
      seen_after (l.map (fun o => Event.unlink o.tag)) seen =
        (l.map Outstanding.tag).reverse ++ seen := by
  intro l
  induction l with
  | nil => intro seen; rfl
  | cons o rest ih =>
    intro seen
    simp [seen_after, ih]

theorem context_subscribe_cb_unlink_before_cb (p : Private) (t idx : Nat) :
    unlink_before_cb (context_subscribe_cb p t idx).fst [] = true := by
  unfold context_subscribe_cb
  split
  · rfl
  rw [unlink_before_cb_append, map_unlink_unlink_before_cb, seen_after_map_unlink]
  simp only [Bool.true_and]
  apply subscribe_cb_deliver_unlink_before_cb
  intro o ho
  apply contains_of_mem
  apply List.mem_append_left
  exact List.mem_reverse.mpr (List.mem_map_of_mem Outstanding.tag (List.mem_reverse.mp ho))

theorem cancel_loop_registry (cid : Nat) (env : CancelEnv) :
    ∀ (regs : List Outstanding) (ret : Int),
      (cancel_loop cid env regs ret).snd.snd =
        regs.filter (fun o => !(cancel_matches cid o)) := by
  intro regs
  induction regs with
  | nil => intro ret; rfl
  | cons o rest ih =>
    intro ret
    by_cases hm : cancel_matches cid o
    · simp [cancel_loop, hm, ih]
    · simp [cancel_loop, hm, ih]

theorem cancel_loop_cb_sees_no_unlink (cid : Nat) (env : CancelEnv) :
    ∀ (regs : List Outstanding) (seen : List Nat) (ret : Int),
      (∀ o ∈ regs, seen.contains o.tag = false) →
      (regs.map Outstanding.tag).Nodup →
      cb_sees_no_unlink (cancel_loop cid env regs ret).snd.fst seen = true := by
  intro regs
  induction regs with
  | nil => intro seen ret _ _; rfl
  | cons o rest ih =>
    intro seen ret hseen hnd
    have hseen0 : seen.contains o.tag = false := hseen o (List.mem_cons_self o rest)
    have hseenrest : ∀ o2 ∈ rest, seen.contains o2.tag = false :=
      fun o2 ho2 => hseen o2 (List.mem_cons_of_mem o ho2)
    have hnd2 : (rest.map Outstanding.tag).Nodup := (List.nodup_cons.mp hnd).2
    have hfresh : o.tag ∉ rest.map Outstanding.tag := (List.nodup_cons.mp hnd).1
    have hmem0 : o.tag ∉ seen := by simpa using hseen0
    by_cases hm : cancel_matches cid o
    · have hseenrest2 : ∀ o2 ∈ rest, (o.tag :: seen).contains o2.tag = false := by
        intro o2 ho2
        have hne : (o2.tag == o.tag) = false := by
          rw [beq_eq_false_iff_ne]
          intro hEq
          exact hfresh (hEq ▸ List.mem_map_of_mem Outstanding.tag ho2)
        have hnomem : o2.tag ∉ seen := by simpa using hseenrest o2 ho2
        simp [List.contains_cons, hne, hnomem, beq_eq_false_iff_ne.mp hne]
      by_cases hcb : o.callback
      · simp [cancel_loop, hm, hcb, cb_sees_no_unlink, hseen0, hmem0,
          ih (o.tag :: seen) _ hseenrest2 hnd2]
      · simp [cancel_loop, hm, hcb, cb_sees_no_unlink, hseen0, hmem0,
          ih (o.tag :: seen) _ hseenrest2 hnd2]
    · simp [cancel_loop, hm, cb_sees_no_unlink, ih seen _ hseenrest hnd2]

/-- Concrete instances used by the claim theorems below. -/
def access_env : PlayEnv :=
  { attempts := [attempt_fail PA_ERR_ACCESS], caches := [],
    sub := ⟨true, 0, 0⟩, vol_ok := true, stream := ok_stream_env }

/-- A registry entry for a named-sample request, id 7, sink input 5,
with a completion callback, marked for asynchronous cleanup. -/
def cancel_cex_out : Outstanding :=
  { tag := 1, type := outstanding_type.OUTSTANDING_SAMPLE, id := 7, sink_input := 5,
    stream := false, callback := true, userdata := false, file := false,
    error := 0, clean_up := true }

/-- A driver context whose registry holds exactly `cancel_cex_out`. -/
def cancel_cex_p : Private := { fresh_private with outstanding := [cancel_cex_out] }

/-- A cancel environment in which every `pa_context_kill_sink_input`
succeeds; the indeterminate `ret2` value is 0. -/
def cancel_cex_env : CancelEnv := ⟨fun _ => false, 0, 0⟩

/-- A cancel environment in which every kill succeeds but the
indeterminate value sitting in the uninitialized `ret2` is 7. -/
def cancel_garbage_env : CancelEnv := ⟨fun _ => false, 0, 7⟩

/-- C1, counterexample.  On the explicit-cancel completion path the claim
fails: cancelling id 7 on a registry holding one matching request produces
the trace kill, callback, unlink, free — the `CA_ERROR_CANCELED` callback
is invoked BEFORE the request is unlinked from the registry (pulse.c lines
828-832), so the callback observes the request still linked. -/
theorem C1_cancel_callback_sees_linked_request :
    (driver_cancel cancel_cex_p 7 cancel_cex_env).snd.fst =
      [Event.kill 5, Event.cb 1 7 CA_ERROR_CANCELED, Event.unlink 1, Event.free 1] ∧
    unlink_before_cb (driver_cancel cancel_cex_p 7 cancel_cex_env).snd.fst [] = false := by
  exact ⟨by decide, by decide⟩

/-- C1, amended.  On every completion path other than explicit cancel —
fatal connection loss (`context_state_cb`), context destroy
(`driver_destroy`), stream drain (`stream_drain_cb`), stream
failure/termination (`stream_state_cb`), write-side failure
(`stream_write_cb`), and sink-input removal (`context_subscribe_cb`) —
the request is unlinked from the registry strictly before its completion
callback is invoked.  On the explicit-cancel path the order is reversed:
every callback is invoked while its request is still linked (given
distinct node identities in the registry), although every matched request
is still unlinked from the registry before `driver_cancel` returns. -/
theorem C1_unlink_before_callback_per_path :
    (∀ (p : Private) (st : pa_context_state) (e : Nat),
      unlink_before_cb (context_state_cb p st e).fst [] = true) ∧
    (∀ p : Private, unlink_before_cb (driver_destroy p).snd.fst [] = true) ∧
    (∀ (p : Private) (o : Outstanding) (success : Bool) (e : Nat),
      unlink_before_cb (stream_drain_cb p o success e).fst [] = true) ∧
    (∀ (p : Private) (o : Outstanding) (st : pa_stream_state) (e : Nat),
      unlink_before_cb (stream_state_cb p o st e).fst [] = true) ∧
    (∀ (p : Private) (o : Outstanding) (env : WriteEnv),
      unlink_before_cb (stream_write_cb p o env).fst [] = true) ∧
    (∀ (p : Private) (t idx : Nat),
      unlink_before_cb (context_subscribe_cb p t idx).fst [] = true) ∧
    (∀ (p : Private) (cid : Nat) (env : CancelEnv),
      (p.outstanding.map Outstanding.tag).Nodup →
      cb_sees_no_unlink (driver_cancel p cid env).snd.fst [] = true) ∧
    (∀ (p : Private) (cid : Nat) (env : CancelEnv),
      p.mainloop = true → p.context = true →
      (driver_cancel p cid env).snd.snd.outstanding =
        p.outstanding.filter (fun o => !(cancel_matches cid o))) := by
  refine ⟨context_state_cb_unlink_before_cb, driver_destroy_unlink_before_cb,
    stream_drain_cb_unlink_before_cb, stream_state_cb_unlink_before_cb,
    stream_write_cb_unlink_before_cb, context_subscribe_cb_unlink_before_cb,
    ?_, ?_⟩
  · intro p cid env hnd
    unfold driver_cancel
    split
    · rfl
    · exact cancel_loop_cb_sees_no_unlink cid env p.outstanding [] CA_SUCCESS
        (fun o _ => rfl) hnd
  · intro p cid env h1 h2
    have hv : ¬(¬ p.mainloop ∨ ¬ p.context) := by simp [h1, h2]
    unfold driver_cancel
    rw [if_neg hv]
    exact cancel_loop_registry cid env p.outstanding CA_SUCCESS

/-- C1, witness for the amended theorem's hypotheses, at the concrete
one-request registry. -/
theorem C1_unlink_before_callback_per_path_witness :
    cb_sees_no_unlink (driver_cancel cancel_cex_p 7 cancel_cex_env).snd.fst [] = true ∧
    (driver_cancel cancel_cex_p 7 cancel_cex_env).snd.snd.outstanding =
      cancel_cex_p.outstanding.filter (fun o => !(cancel_matches 7 o)) :=
  ⟨C1_unlink_before_callback_per_path.2.2.2.2.2.2.1 cancel_cex_p 7 cancel_cex_env
    (by decide),
   C1_unlink_before_callback_per_path.2.2.2.2.2.2.2 cancel_cex_p 7 cancel_cex_env
    (by decide) (by decide)⟩

/-- C2.  `strip_canberra_data` does NOT remove the keys of the reserved
`canberra.` namespace: its `strncmp` length is 12 while the namespace
string has 9 characters, so the prefix test succeeds only for a key that
is literally `"canberra."`.  A server property list holding only
internal-namespace keys passes through stripping unchanged instead of
becoming empty. -/
theorem C2_strip_keeps_internal_keys :
    strip_canberra_data [("canberra.volume", "1.0"), ("canberra.cache-control", "volatile")] =
      [("canberra.volume", "1.0"), ("canberra.cache-control", "volatile")] ∧
    strip_canberra_data [("canberra.volume", "1.0"), ("canberra.cache-control", "volatile")] ≠
      ([] : PaProplist) ∧
    strncmp_is_zero "canberra.volume" "canberra." 12 = false ∧
    strncmp_is_zero "canberra.volume" "canberra." 9 = true := by
  exact ⟨by decide, by decide, by decide, by decide⟩

/-- C3.  For every context, request and environment, `driver_play`
performs at most 3 named-sample play attempts and at most 2 cache uploads.
When the server reports NotFound on all three attempts (and the uploads
succeed), exactly 3 attempts and exactly 2 uploads occur before the
direct-streaming fallback connects a playback stream.  In the "bell"
scenario — cache-control `volatile`, NotFound twice, success on attempt
3 — exactly 2 cache uploads occur, `driver_play` returns success and links
the request, and the subsequent sink-input-removal notification delivers
exactly one callback with the success code. -/
theorem C3_retry_bound_and_scenario :
    (∀ (p : Private) (tag id : Nat) (pl : PaProplist) (cb ud : Bool) (env : PlayEnv),
      count_ev Event.play_attempt (driver_play p tag id pl cb ud env).events ≤ 3 ∧
      count_ev Event.connect_upload (driver_play p tag id pl cb ud env).events ≤ 2) ∧
    (count_ev Event.play_attempt
        (driver_play fresh_private 1 7 bell_proplist true false notfound_env).events = 3 ∧
      count_ev Event.connect_upload
        (driver_play fresh_private 1 7 bell_proplist true false notfound_env).events = 2 ∧
      (driver_play fresh_private 1 7 bell_proplist true false notfound_env).events.contains
        Event.connect_playback = true) ∧
    (count_ev Event.connect_upload
        (driver_play fresh_private 1 7 bell_proplist true false bell_env).events = 2 ∧
      (driver_play fresh_private 1 7 bell_proplist true false bell_env).ret = CA_SUCCESS ∧
      (driver_play fresh_private 1 7 bell_proplist true false bell_env).linked = true ∧
      cb_events (context_subscribe_cb
          (driver_play fresh_private 1 7 bell_proplist true false bell_env).p
          PA_SINK_INPUT_REMOVE 42).fst = [(7, CA_SUCCESS)]) := by
  refine ⟨driver_play_counts, ⟨?_, ?_, ?_⟩, ⟨?_, ?_, ?_, ?_⟩⟩
  all_goals decide

/-- C4.  The claim fails on the code: with cache-control explicitly
`never`, `driver_cache` does NOT fail Invalid — the check at pulse.c line
889 compares the string pointer `ct` with the enum constant, so a present
property never trips it and the upload proceeds (sound file resolved,
upload stream created and connected).  The check fires instead when the
cache-control property is ABSENT, which the last conjunct shows. -/
theorem C4_cache_never_still_uploads :
    (driver_cache fresh_private
      [("event.id", "bell"), ("canberra.cache-control", "never")] default_cache_env).ret =
      CA_SUCCESS ∧
    (driver_cache fresh_private
      [("event.id", "bell"), ("canberra.cache-control", "never")] default_cache_env).events =
      [Event.lookup, Event.stream_new, Event.connect_upload] ∧
    CA_SUCCESS ≠ CA_ERROR_INVALID ∧
    (driver_cache fresh_private [("event.id", "bell")] default_cache_env).ret =
      CA_ERROR_INVALID := by
  exact ⟨by decide, by decide, by decide, by decide⟩

/-- C5.  The claim fails on the code: when the server answers the
named-sample play attempt with an Access error (any result other than
NotFound), `driver_play` jumps to `finish:` without assigning the recorded
result to `ret` (pulse.c lines 689-691), and returns the stale
`CA_SUCCESS` left in `ret` by the proplist conversion — even though the
request's recorded error is `CA_ERROR_ACCESS`. -/
theorem C5_play_returns_stale_result :
    (driver_play fresh_private 1 7 [("event.id", "bell")] false false access_env).ret =
      CA_SUCCESS ∧
    ((driver_play fresh_private 1 7 [("event.id", "bell")] false false access_env).out.map
      Outstanding.error) = some CA_ERROR_ACCESS ∧
    CA_ERROR_ACCESS ≠ CA_SUCCESS := by
  exact ⟨by decide, by decide, by decide⟩

/-- C6.  `translate_error` is total: every code at or beyond
`PA_ERR_MAX` maps to the generic I/O error, every code within the server's
defined range carries an explicit designated initializer (so the claim's
"unmapped within range" case is vacuous), and therefore every code that is
out of range or unmapped translates to `CA_ERROR_IO`. -/
theorem C6_translate_error_total :
    (∀ e : Nat, PA_ERR_MAX ≤ e → translate_error e = CA_ERROR_IO) ∧
    (∀ e : Nat, e < PA_ERR_MAX → explicitly_mapped e = true) ∧
    (∀ e : Nat, PA_ERR_MAX ≤ e ∨ explicitly_mapped e = false →
      translate_error e = CA_ERROR_IO) := by
  have h1 : ∀ e : Nat, PA_ERR_MAX ≤ e → translate_error e = CA_ERROR_IO := by
    intro e he
    unfold translate_error
    rw [if_pos he]
  have h2 : ∀ e : Nat, e < PA_ERR_MAX → explicitly_mapped e = true := by
    intro e he
    have he19 : e < 19 := he
    interval_cases e <;> decide
  refine ⟨h1, h2, ?_⟩
  intro e he
  rcases he with he | he
  · exact h1 e he
  · by_cases hlt : e < PA_ERR_MAX
    · rw [h2 e hlt] at he
      cases he
    · exact h1 e (Nat.le_of_not_lt hlt)

/-- C6, witness at the concrete out-of-range code 25. -/
theorem C6_translate_error_total_witness :
    PA_ERR_MAX ≤ 25 ∧ translate_error 25 = CA_ERROR_IO :=
  ⟨by decide, C6_translate_error_total.1 25 (by decide)⟩

/-- C7.  The claim fails on the code: the per-iteration local `ret2` is
never initialized on the successful-kill branch (pulse.c line 808), so
`cancel(id)` on a single matching, server-tracked request whose kill
SUCCEEDS can return an arbitrary non-success value (here the indeterminate
stack value 7) instead of success.  The request is still killed, notified
with `CA_ERROR_CANCELED`, unlinked and freed. -/
theorem C7_cancel_returns_indeterminate :
    (driver_cancel cancel_cex_p 7 cancel_garbage_env).fst = 7 ∧
    (7 : Int) ≠ CA_SUCCESS ∧
    (driver_cancel cancel_cex_p 7 cancel_garbage_env).snd.fst =
      [Event.kill 5, Event.cb 1 7 CA_ERROR_CANCELED, Event.unlink 1, Event.free 1] ∧
    (driver_cancel cancel_cex_p 7 cancel_garbage_env).snd.snd.outstanding = [] := by
  exact ⟨by decide, by decide, by decide, by decide⟩

/-- C8.  Destroying the context drains the registry: `driver_destroy`
returns success, leaves the registry empty, delivers exactly one
`CA_ERROR_DESTROYED` callback for each outstanding request that has a
callback (in registry order), and frees every outstanding request. -/
theorem C8_destroy_drains_registry (p : Private) :
    (driver_destroy p).fst = CA_SUCCESS ∧
    (driver_destroy p).snd.snd.outstanding = [] ∧
    cb_events (driver_destroy p).snd.fst =
      p.outstanding.filterMap
        (fun o => if o.callback then some (o.id, CA_ERROR_DESTROYED) else none) ∧
    free_events (driver_destroy p).snd.fst = p.outstanding.map Outstanding.tag :=
  ⟨rfl, rfl, drain_events_cb_events p.outstanding CA_ERROR_DESTROYED,
    drain_events_free_events p.outstanding CA_ERROR_DESTROYED⟩

/-- C9.  The claim fails on the code: on a fresh context the first
`subscribe` call does issue the server subscription request and sets the
monotonic flag, but its local `ret` is never initialized on the success
branch (pulse.c lines 413, 428-431), so the call returns the indeterminate
stack value (here -14) instead of success.  A second call issues no
request and returns success, and the flag stays set. -/
theorem C9_subscribe_uninitialized_return :
    (subscribe fresh_private ⟨true, 0, -14⟩).fst = -14 ∧
    (-14 : Int) ≠ CA_SUCCESS ∧
    (subscribe fresh_private ⟨true, 0, -14⟩).snd.fst = [Event.subscribe_request] ∧
    (subscribe fresh_private ⟨true, 0, -14⟩).snd.snd.subscribed = true ∧
    (subscribe { fresh_private with subscribed := true } ⟨true, 0, -14⟩).fst = CA_SUCCESS ∧
    (subscribe { fresh_private with subscribed := true } ⟨true, 0, -14⟩).snd.fst = [] ∧
    (subscribe { fresh_private with subscribed := true } ⟨true, 0, -14⟩).snd.snd.subscribed =
      true := by
  exact ⟨by decide, by decide, by decide, by decide, by decide, by decide, by decide⟩

/-- C10.  A play request carrying a non-null userdata pointer but no
completion callback is rejected with `CA_ERROR_INVALID` by the argument
check at pulse.c line 613, before the request structure is built and
before any server contact: the trace is empty, nothing is linked, and the
driver state is untouched. -/
theorem C10_play_userdata_without_callback (p : Private) (tag id : Nat)
    (pl : PaProplist) (env : PlayEnv) :
    (driver_play p tag id pl false true env).ret = CA_ERROR_INVALID ∧
    (driver_play p tag id pl false true env).events = [] ∧
    (driver_play p tag id pl false true env).linked = false ∧
    (driver_play p tag id pl false true env).out = none ∧
    (driver_play p tag id pl false true env).p = p :=
  ⟨rfl, rfl, rfl, rfl, rfl⟩

end Canberra
